import Mathlib

/-!
Verification of the Decision Pipeline backend (bias gate, gatekeeper,
sensor council, signal extractor, decision core, optimizer, rate limiter)
against its specification.  The Python sources under `backend/` are
shallowly embedded as executable Lean definitions; machine floats
(`time.time()` values) are modelled as rationals, Python dicts as
association lists or option-valued records, and exceptions as `Option`.
-/

/-! ## Data model (backend/models.py) -/

/-- Irreversibility classification (`IrreversibleType`). -/
inductive IrreversibleType where
  | YES
  | NO
  | PARTIAL
deriving DecidableEq, Repr

/-- Green sensor signal (`ConstraintSignal`). -/
inductive ConstraintSignal where
  | PASS
  | VIOLATED
deriving DecidableEq, Repr

/-- Red sensor signal (`RiskSignal`). -/
inductive RiskSignal where
  | MANAGED
  | CATASTROPHIC
deriving DecidableEq, Repr

/-- Blue sensor signal (`ROISignal`). -/
inductive ROISignal where
  | POSITIVE
  | NEGATIVE
deriving DecidableEq, Repr

/-- Final decision verdict (`DecisionVerdict`). -/
inductive DecisionVerdict where
  | APPROVED
  | CAUTION
  | BLOCKED
deriving DecidableEq, Repr

/-- Emotional bias level classification (`BiasLevel`). -/
inductive BiasLevel where
  | LOW
  | MEDIUM
  | HIGH
deriving DecidableEq, Repr

/-- Reality Constraint Sensor output (`GreenSensorOutput`). -/
structure GreenSensorOutput where
  sentence : String
  signal : ConstraintSignal
deriving DecidableEq, Repr

/-- Failure Mode Sensor output (`RedSensorOutput`). -/
structure RedSensorOutput where
  sentence : String
  signal : RiskSignal
deriving DecidableEq, Repr

/-- Logic / ROI Sensor output (`BlueSensorOutput`). -/
structure BlueSensorOutput where
  sentence : String
  signal : ROISignal
deriving DecidableEq, Repr

/-- Opportunity Sensor output (`YellowSensorOutput`); yellow has no signal. -/
structure YellowSensorOutput where
  sentence : String
deriving DecidableEq, Repr

/-- Combined output from all four sensors (`SensorCouncilOutput`). -/
structure SensorCouncilOutput where
  green : GreenSensorOutput
  red : RedSensorOutput
  blue : BlueSensorOutput
  yellow : YellowSensorOutput
deriving DecidableEq, Repr

/-- Reasons contributing to the decision (`DecisionReason`). -/
structure DecisionReason where
  constraint : String
  risk : String
  logic : String
  upside : String
deriving DecidableEq, Repr

/-- The `scores` dict built by `SignalExtractor._calculate_scores`:
it always has exactly the four keys `constraint`, `risk`, `roi`, `overall`. -/
structure Scores where
  constraint : Int
  risk : Int
  roi : Int
  overall : Int
deriving DecidableEq, Repr

/-- Final decision output card (`DecisionCard`). -/
structure DecisionCard where
  verdict : DecisionVerdict
  blocking_reason : Option String
  reasons : DecisionReason
  scores : Scores
deriving DecidableEq, Repr

/-- Result from emotional bias detection (`BiasAnalysis`).  The pydantic
model constrains `bias_score` to `ge=0, le=100`; the range check is kept
at the construction site (`EmotionalBiasDetector.analyze`). -/
structure BiasAnalysis where
  bias_score : Int
  bias_level : BiasLevel
  flagged_phrases : List String
  suggestion : Option String
deriving DecidableEq, Repr

/-! ## SignalExtractor (backend/extractor.py) -/

/-- The dict returned by `SignalExtractor.extract`: three signals, four
sentences and the scores map. -/
structure Extracted where
  constraint_signal : ConstraintSignal
  risk_signal : RiskSignal
  roi_signal : ROISignal
  constraint_sentence : String
  risk_sentence : String
  roi_sentence : String
  upside_sentence : String
  scores : Scores
deriving DecidableEq, Repr

namespace SignalExtractor

/-- `SignalExtractor._calculate_scores`. -/
def calculateScores (sensors : SensorCouncilOutput) : Scores :=
  let constraint_score : Int :=
    if sensors.green.signal = ConstraintSignal.PASS then 100 else 15
  let risk_score : Int :=
    if sensors.red.signal = RiskSignal.MANAGED then 85 else 10
  let roi_score : Int :=
    if sensors.blue.signal = ROISignal.POSITIVE then 80 else 20
  let overall : Int :=
    if sensors.green.signal = ConstraintSignal.VIOLATED then 10
    else if sensors.red.signal = RiskSignal.CATASTROPHIC then 15
    else if sensors.blue.signal = ROISignal.NEGATIVE then 25
    else 90
  { constraint := constraint_score
    risk := risk_score
    roi := roi_score
    overall := overall }

/-- `SignalExtractor.extract`. -/
def extract (sensors : SensorCouncilOutput) : Extracted :=
  { constraint_signal := sensors.green.signal
    risk_signal := sensors.red.signal
    roi_signal := sensors.blue.signal
    constraint_sentence := sensors.green.sentence
    risk_sentence := sensors.red.sentence
    roi_sentence := sensors.blue.sentence
    upside_sentence := sensors.yellow.sentence
    scores := calculateScores sensors }

end SignalExtractor

/-! ## DecisionCore (backend/decision_core.py) -/

namespace DecisionCore

/-- `DecisionCore._apply_logic`. -/
def applyLogic (constraint : ConstraintSignal) (risk : RiskSignal)
    (roi : ROISignal) (reasons : DecisionReason) :
    DecisionVerdict × Option String :=
  if constraint = ConstraintSignal.VIOLATED then
    (DecisionVerdict.BLOCKED, some ("CONSTRAINT VIOLATED: " ++ reasons.constraint))
  else if risk = RiskSignal.CATASTROPHIC then
    (DecisionVerdict.CAUTION, some ("HIGH RISK: " ++ reasons.risk))
  else if roi = ROISignal.NEGATIVE then
    (DecisionVerdict.CAUTION, some ("NEGATIVE ROI: " ++ reasons.logic))
  else
    (DecisionVerdict.APPROVED, none)

/-- `DecisionCore.decide`. -/
def decide (extracted : Extracted) : DecisionCard :=
  let reasons : DecisionReason :=
    { constraint := extracted.constraint_sentence
      risk := extracted.risk_sentence
      logic := extracted.roi_sentence
      upside := extracted.upside_sentence }
  let vr := applyLogic extracted.constraint_signal extracted.risk_signal
    extracted.roi_signal reasons
  { verdict := vr.1
    blocking_reason := vr.2
    reasons := reasons
    scores := extracted.scores }

end DecisionCore

/-! ## Claim theorems: decision core and extractor -/

/-- C1: `DecisionCore.decide` applies the rules first-match-wins:
constraint VIOLATED gives BLOCKED with reason `CONSTRAINT VIOLATED: ...`;
else risk CATASTROPHIC gives CAUTION with `HIGH RISK: ...`; else roi
NEGATIVE gives CAUTION with `NEGATIVE ROI: ...`; else APPROVED with no
reason; and constraint VIOLATED is the only condition producing BLOCKED. -/
theorem c1_decision_rule_order :
    (∀ r roi reasons, DecisionCore.applyLogic ConstraintSignal.VIOLATED r roi reasons =
      (DecisionVerdict.BLOCKED, some ("CONSTRAINT VIOLATED: " ++ reasons.constraint))) ∧
    (∀ roi reasons, DecisionCore.applyLogic ConstraintSignal.PASS
        RiskSignal.CATASTROPHIC roi reasons =
      (DecisionVerdict.CAUTION, some ("HIGH RISK: " ++ reasons.risk))) ∧
    (∀ reasons, DecisionCore.applyLogic ConstraintSignal.PASS RiskSignal.MANAGED
        ROISignal.NEGATIVE reasons =
      (DecisionVerdict.CAUTION, some ("NEGATIVE ROI: " ++ reasons.logic))) ∧
    (∀ reasons, DecisionCore.applyLogic ConstraintSignal.PASS RiskSignal.MANAGED
        ROISignal.POSITIVE reasons = (DecisionVerdict.APPROVED, none)) ∧
    (∀ sensors : SensorCouncilOutput,
      ((DecisionCore.decide (SignalExtractor.extract sensors)).verdict =
          DecisionVerdict.BLOCKED ↔
        sensors.green.signal = ConstraintSignal.VIOLATED) ∧
      ((DecisionCore.decide (SignalExtractor.extract sensors)).verdict =
          DecisionVerdict.CAUTION →
        sensors.green.signal = ConstraintSignal.PASS ∧
        (sensors.red.signal = RiskSignal.CATASTROPHIC ∨
         sensors.blue.signal = ROISignal.NEGATIVE))) := by
  refine ⟨?_, ?_, ?_, ?_, ?_⟩
  · intro r roi reasons; rfl
  · intro roi reasons; rfl
  · intro reasons; rfl
  · intro reasons; rfl
  · rintro ⟨⟨gs, gsig⟩, ⟨rs, rsig⟩, ⟨bs, bsig⟩, ⟨ys⟩⟩
    cases gsig <;> cases rsig <;> cases bsig <;>
      simp [DecisionCore.decide, DecisionCore.applyLogic, SignalExtractor.extract]

/-- C1 witness: the claim theorem applied at a concrete sensor output. -/
theorem c1_decision_rule_order_witness :
    (DecisionCore.decide (SignalExtractor.extract
      { green := { sentence := "g", signal := ConstraintSignal.VIOLATED }
        red := { sentence := "r", signal := RiskSignal.MANAGED }
        blue := { sentence := "b", signal := ROISignal.POSITIVE }
        yellow := { sentence := "y" } })).verdict = DecisionVerdict.BLOCKED := by
  exact (c1_decision_rule_order.2.2.2.2 _).1.mpr rfl

/-- C6: the signal extractor scores are the stated pure function of the
signals: constraint 100/15 by PASS, risk 85/10 by MANAGED, roi 80/20 by
POSITIVE, and overall 10, 15, 25, 90 resolved in priority order. -/
theorem c6_score_rules (sensors : SensorCouncilOutput) :
    ((SignalExtractor.calculateScores sensors).constraint = 100 ↔
      sensors.green.signal = ConstraintSignal.PASS) ∧
    ((SignalExtractor.calculateScores sensors).constraint = 15 ↔
      sensors.green.signal = ConstraintSignal.VIOLATED) ∧
    ((SignalExtractor.calculateScores sensors).risk = 85 ↔
      sensors.red.signal = RiskSignal.MANAGED) ∧
    ((SignalExtractor.calculateScores sensors).risk = 10 ↔
      sensors.red.signal = RiskSignal.CATASTROPHIC) ∧
    ((SignalExtractor.calculateScores sensors).roi = 80 ↔
      sensors.blue.signal = ROISignal.POSITIVE) ∧
    ((SignalExtractor.calculateScores sensors).roi = 20 ↔
      sensors.blue.signal = ROISignal.NEGATIVE) ∧
    ((SignalExtractor.calculateScores sensors).overall =
      if sensors.green.signal = ConstraintSignal.VIOLATED then 10
      else if sensors.red.signal = RiskSignal.CATASTROPHIC then 15
      else if sensors.blue.signal = ROISignal.NEGATIVE then 25
      else 90) := by
  obtain ⟨⟨gs, gsig⟩, ⟨rs, rsig⟩, ⟨bs, bsig⟩, ⟨ys⟩⟩ := sensors
  cases gsig <;> cases rsig <;> cases bsig <;>
    simp [SignalExtractor.calculateScores]

/-- C10: verdict and overall score always correspond: APPROVED iff
overall 90, BLOCKED iff overall 10, CAUTION iff overall 15 or 25. -/
theorem c10_verdict_score_consistency (sensors : SensorCouncilOutput) :
    ((DecisionCore.decide (SignalExtractor.extract sensors)).verdict =
        DecisionVerdict.APPROVED ↔
      (SignalExtractor.extract sensors).scores.overall = 90) ∧
    ((DecisionCore.decide (SignalExtractor.extract sensors)).verdict =
        DecisionVerdict.BLOCKED ↔
      (SignalExtractor.extract sensors).scores.overall = 10) ∧
    ((DecisionCore.decide (SignalExtractor.extract sensors)).verdict =
        DecisionVerdict.CAUTION ↔
      ((SignalExtractor.extract sensors).scores.overall = 15 ∨
       (SignalExtractor.extract sensors).scores.overall = 25)) := by
  obtain ⟨⟨gs, gsig⟩, ⟨rs, rsig⟩, ⟨bs, bsig⟩, ⟨ys⟩⟩ := sensors
  cases gsig <;> cases rsig <;> cases bsig <;>
    simp [DecisionCore.decide, DecisionCore.applyLogic, SignalExtractor.extract,
      SignalExtractor.calculateScores]

/-! ## Python string helpers shared by several components -/

/-- Python `str.strip()` whitespace set (ASCII). -/
def isPyWs (c : Char) : Bool :=
  c = ' ' || c = '\t' || c = '\n' || c = '\r' || c = '\x0b' || c = '\x0c'

/-- Python `str.strip()` (ASCII whitespace; the repository's payloads are ASCII). -/
def pyStrip (s : String) : String :=
  ⟨((s.data.dropWhile isPyWs).reverse.dropWhile isPyWs).reverse⟩

/-- Python `str.upper()` restricted to ASCII. -/
def pyUpper (s : String) : String := ⟨s.data.map Char.toUpper⟩

/-- Python `str.lower()` restricted to ASCII. -/
def pyLower (s : String) : String := ⟨s.data.map Char.toLower⟩

/-- Boolean prefix test on character lists (Python `str.startswith`). -/
def isPrefixL : List Char → List Char → Bool
  | [], _ => true
  | _ :: _, [] => false
  | a :: as, b :: bs => a == b && isPrefixL as bs

/-! ## SensorCouncil (backend/sensors.py) -/

/-- Enum constructor `ConstraintSignal(value)`: `some` on a valid member
value, `none` models the `ValueError`. -/
def ConstraintSignal.ofStr : String → Option ConstraintSignal
  | "PASS" => some ConstraintSignal.PASS
  | "VIOLATED" => some ConstraintSignal.VIOLATED
  | _ => none

/-- Enum constructor `RiskSignal(value)`. -/
def RiskSignal.ofStr : String → Option RiskSignal
  | "MANAGED" => some RiskSignal.MANAGED
  | "CATASTROPHIC" => some RiskSignal.CATASTROPHIC
  | _ => none

/-- Enum constructor `ROISignal(value)`. -/
def ROISignal.ofStr : String → Option ROISignal
  | "POSITIVE" => some ROISignal.POSITIVE
  | "NEGATIVE" => some ROISignal.NEGATIVE
  | _ => none

namespace SensorCouncil

/-- `SensorCouncil._get_fallback_output`. -/
def getFallbackOutput (errorMsg : String) : SensorCouncilOutput :=
  { green := { sentence := errorMsg, signal := ConstraintSignal.VIOLATED }
    red := { sentence := errorMsg, signal := RiskSignal.CATASTROPHIC }
    blue := { sentence := errorMsg, signal := ROISignal.NEGATIVE }
    yellow := { sentence := errorMsg } }

/-- `SensorCouncil._parse_enum`: a falsy (`None` or empty) value or an
unrecognized member yields the default; otherwise the value is
uppercased and stripped before the enum lookup. -/
def parseEnum {α : Type} (ofStr : String → Option α) (value : Option String)
    (default : α) : α :=
  match value with
  | none => default
  | some v =>
    if v = "" then default
    else
      match ofStr (pyUpper (pyStrip v)) with
      | some x => x
      | none => default

/-- The projection of the dict returned by `SensorCouncil._parse_json`
that `analyze` reads: the optional per-sensor `sentence`/`signal`
entries and the optional `error` entry (its presence models
`"error" in data`).  The parsed LM response is an external input of the
loop, so it is the oracle datum here. -/
structure ParsedSensorData where
  errorVal : Option String
  greenSentence : Option String
  greenSignal : Option String
  redSentence : Option String
  redSignal : Option String
  blueSentence : Option String
  blueSignal : Option String
  yellowSentence : Option String

/-- The parse-error-sentinel retry test in `SensorCouncil.analyze`:
`"error" in data and not data.get("green", {}).get("sentence", "").startswith("The limiting")`. -/
def sentinelRetry (d : ParsedSensorData) : Bool :=
  d.errorVal.isSome && !(isPrefixL "The limiting".data (d.greenSentence.getD "").data)

/-- The `SensorCouncilOutput` constructed at the end of a successful
`analyze` attempt, with the per-key failure defaults. -/
def buildOutput (d : ParsedSensorData) : SensorCouncilOutput :=
  { green :=
      { sentence := d.greenSentence.getD
          ("Green Sensor Failed: " ++ d.errorVal.getD "Unknown error")
        signal := parseEnum ConstraintSignal.ofStr d.greenSignal
          ConstraintSignal.VIOLATED }
    red :=
      { sentence := d.redSentence.getD "Red Sensor Failed"
        signal := parseEnum RiskSignal.ofStr d.redSignal
          RiskSignal.CATASTROPHIC }
    blue :=
      { sentence := d.blueSentence.getD "Blue Sensor Failed"
        signal := parseEnum ROISignal.ofStr d.blueSignal
          ROISignal.NEGATIVE }
    yellow := { sentence := d.yellowSentence.getD "Yellow Sensor Failed" } }

/-- Outcome of one attempt of the `analyze` retry loop, as seen after the
LM call and response parsing: a reported safety block, a response whose
`.text` accessor raised, a parsed dict, or any other exception. -/
inductive AttemptOutcome where
  | safetyBlock (reason : String)
  | noText (err : String)
  | parsed (data : ParsedSensorData)
  | exn (err : String)

/-- The body of the `for attempt in range(max_retries + 1)` loop of
`SensorCouncil.analyze`; `remaining = max_retries - attempt` counts the
retries left (so `remaining > 0` iff `attempt < max_retries`). -/
def analyzeFrom (attempts : Nat → AttemptOutcome) :
    Nat → Nat → SensorCouncilOutput
  | remaining, attempt =>
    match attempts attempt with
    | AttemptOutcome.safetyBlock reason =>
      getFallbackOutput ("Blocked: " ++ reason)
    | AttemptOutcome.noText err =>
      match remaining with
      | r + 1 => analyzeFrom attempts r (attempt + 1)
      | 0 => getFallbackOutput err
    | AttemptOutcome.parsed d =>
      match remaining with
      | r + 1 =>
        if sentinelRetry d then analyzeFrom attempts r (attempt + 1)
        else buildOutput d
      | 0 => buildOutput d
    | AttemptOutcome.exn _ =>
      match remaining with
      | r + 1 => analyzeFrom attempts r (attempt + 1)
      | 0 => getFallbackOutput "Analysis failed after multiple attempts. Please try again."

/-- `SensorCouncil.analyze` with `max_retries` retries, driven by the
oracle of per-attempt outcomes. -/
def analyze (attempts : Nat → AttemptOutcome) (maxRetries : Nat) :
    SensorCouncilOutput :=
  analyzeFrom attempts maxRetries 0

/-- The dict `SensorCouncil._parse_json` returns when every parse
strategy fails (sensors.py:225-231): an `error` entry and per-sensor
sentences only, the green one ending in "retrying may help". -/
def parseFailureSentinel : ParsedSensorData :=
  { errorVal := some "Failed to parse AI response"
    greenSentence := some "Analysis unavailable - retrying may help"
    greenSignal := none
    redSentence := some "Analysis unavailable"
    redSignal := none
    blueSentence := some "Analysis unavailable"
    blueSignal := none
    yellowSentence := some "Analysis unavailable" }

/-- If every attempt raises, the loop exhausts all retries and returns
the fixed fallback. -/
theorem analyzeFrom_exn (attempts : Nat → AttemptOutcome)
    (h : ∀ i, ∃ e, attempts i = AttemptOutcome.exn e) :
    ∀ remaining attempt, analyzeFrom attempts remaining attempt =
      getFallbackOutput "Analysis failed after multiple attempts. Please try again." := by
  intro remaining
  induction remaining with
  | zero =>
    intro attempt
    obtain ⟨e, he⟩ := h attempt
    rw [analyzeFrom, he]
  | succ r ih =>
    intro attempt
    obtain ⟨e, he⟩ := h attempt
    rw [analyzeFrom, he]
    exact ih (attempt + 1)

/-- If every attempt yields parsed data on which the sentinel-retry test
fires, the loop retries until the final attempt and then builds the
output from that attempt's data instead of the uniform fallback. -/
theorem analyzeFrom_sentinel (attempts : Nat → AttemptOutcome)
    (d : Nat → ParsedSensorData)
    (h : ∀ i, attempts i = AttemptOutcome.parsed (d i))
    (hs : ∀ i, sentinelRetry (d i) = true) :
    ∀ remaining attempt, analyzeFrom attempts remaining attempt =
      buildOutput (d (attempt + remaining)) := by
  intro remaining
  induction remaining with
  | zero =>
    intro attempt
    rw [analyzeFrom, h attempt]
    rfl
  | succ r ih =>
    intro attempt
    rw [analyzeFrom, h attempt]
    simp only [hs attempt, if_true]
    rw [ih (attempt + 1)]
    have e : attempt + 1 + r = attempt + (r + 1) := by omega
    rw [e]

end SensorCouncil

/-- C2 counterexample: when every attempt yields unparsable text, the
parse-error sentinel is retried twice and then, with no retries left,
the output is built from the sentinel itself, not from
`_get_fallback_output`: the green sentence is
"Analysis unavailable - retrying may help" while the other three say
"Analysis unavailable", so the four sentences are not all equal to one
error message. -/
theorem c2_counterexample :
    SensorCouncil.sentinelRetry SensorCouncil.parseFailureSentinel = true ∧
    SensorCouncil.analyze
        (fun _ => SensorCouncil.AttemptOutcome.parsed
          SensorCouncil.parseFailureSentinel) 2 =
      { green := { sentence := "Analysis unavailable - retrying may help"
                   signal := ConstraintSignal.VIOLATED }
        red := { sentence := "Analysis unavailable"
                 signal := RiskSignal.CATASTROPHIC }
        blue := { sentence := "Analysis unavailable"
                  signal := ROISignal.NEGATIVE }
        yellow := { sentence := "Analysis unavailable" } } ∧
    ("Analysis unavailable - retrying may help" : String) ≠
      "Analysis unavailable" ∧
    SensorCouncil.analyze
        (fun _ => SensorCouncil.AttemptOutcome.parsed
          SensorCouncil.parseFailureSentinel) 2 ≠
      SensorCouncil.getFallbackOutput
        "Analysis failed after multiple attempts. Please try again." := by
  have h := SensorCouncil.analyzeFrom_sentinel
    (fun _ => SensorCouncil.AttemptOutcome.parsed SensorCouncil.parseFailureSentinel)
    (fun _ => SensorCouncil.parseFailureSentinel)
    (fun _ => rfl) (fun _ => rfl) 2 0
  refine ⟨rfl, ?_, by simp, ?_⟩
  · rw [SensorCouncil.analyze, h]
    rfl
  · rw [SensorCouncil.analyze, h]
    intro hcontra
    have := congrArg (fun o => o.red.sentence) hcontra
    simp [SensorCouncil.buildOutput, SensorCouncil.getFallbackOutput,
      SensorCouncil.parseFailureSentinel] at this

/-- C2 (amended): exhausting all retries with every attempt raising, or
a safety block (in particular with no retries left), makes `analyze`
return the uniform fallback in which all four sentences are the error
message and the signals are VIOLATED / CATASTROPHIC / NEGATIVE, and the
fallback always decides to BLOCKED; exhausting all retries on the
parse-error sentinel (unparsable text on every attempt) instead builds
the output from the final attempt's sentinel data — sentences not all
equal — whose missing green signal defaults to VIOLATED, so that output
too always decides to BLOCKED. -/
theorem c2_sensor_fallback :
    (∀ (attempts : Nat → SensorCouncil.AttemptOutcome) (maxRetries : Nat),
      (∀ i, ∃ e, attempts i = SensorCouncil.AttemptOutcome.exn e) →
      SensorCouncil.analyze attempts maxRetries =
        SensorCouncil.getFallbackOutput
          "Analysis failed after multiple attempts. Please try again.") ∧
    (∀ (attempts : Nat → SensorCouncil.AttemptOutcome) (attempt : Nat)
        (reason : String),
      attempts attempt = SensorCouncil.AttemptOutcome.safetyBlock reason →
      SensorCouncil.analyzeFrom attempts 0 attempt =
        SensorCouncil.getFallbackOutput ("Blocked: " ++ reason)) ∧
    (∀ msg, SensorCouncil.getFallbackOutput msg =
      { green := { sentence := msg, signal := ConstraintSignal.VIOLATED }
        red := { sentence := msg, signal := RiskSignal.CATASTROPHIC }
        blue := { sentence := msg, signal := ROISignal.NEGATIVE }
        yellow := { sentence := msg } }) ∧
    (∀ msg,
      (DecisionCore.decide (SignalExtractor.extract
        (SensorCouncil.getFallbackOutput msg))).verdict =
          DecisionVerdict.BLOCKED ∧
      (DecisionCore.decide (SignalExtractor.extract
        (SensorCouncil.getFallbackOutput msg))).blocking_reason =
          some ("CONSTRAINT VIOLATED: " ++ msg)) ∧
    (∀ (attempts : Nat → SensorCouncil.AttemptOutcome)
        (d : Nat → SensorCouncil.ParsedSensorData) (maxRetries : Nat),
      (∀ i, attempts i = SensorCouncil.AttemptOutcome.parsed (d i)) →
      (∀ i, SensorCouncil.sentinelRetry (d i) = true) →
      SensorCouncil.analyze attempts maxRetries =
        SensorCouncil.buildOutput (d maxRetries)) ∧
    (∀ d : SensorCouncil.ParsedSensorData, d.greenSignal = none →
      (DecisionCore.decide (SignalExtractor.extract
        (SensorCouncil.buildOutput d))).verdict = DecisionVerdict.BLOCKED) := by
  refine ⟨?_, ?_, ?_, ?_, ?_, ?_⟩
  · intro attempts maxRetries h
    exact SensorCouncil.analyzeFrom_exn attempts h maxRetries 0
  · intro attempts attempt reason h
    rw [SensorCouncil.analyzeFrom, h]
  · intro msg; rfl
  · intro msg
    constructor <;> rfl
  · intro attempts d maxRetries h hs
    rw [SensorCouncil.analyze]
    have h0 := SensorCouncil.analyzeFrom_sentinel attempts d h hs maxRetries 0
    rwa [Nat.zero_add] at h0
  · intro d h
    simp [SensorCouncil.buildOutput, SensorCouncil.parseEnum, h,
      DecisionCore.decide, DecisionCore.applyLogic, SignalExtractor.extract]

/-- C2 witness: the amended claim theorem applied to a concrete
all-raising oracle, a concrete safety block, and a concrete
all-sentinel oracle. -/
theorem c2_sensor_fallback_witness :
    SensorCouncil.analyze (fun _ => SensorCouncil.AttemptOutcome.exn "boom") 2 =
      SensorCouncil.getFallbackOutput
        "Analysis failed after multiple attempts. Please try again." ∧
    SensorCouncil.analyzeFrom
        (fun _ => SensorCouncil.AttemptOutcome.safetyBlock "SAFETY") 0 2 =
      SensorCouncil.getFallbackOutput "Blocked: SAFETY" ∧
    (DecisionCore.decide (SignalExtractor.extract
      (SensorCouncil.getFallbackOutput "msg"))).verdict =
        DecisionVerdict.BLOCKED ∧
    SensorCouncil.analyze
        (fun _ => SensorCouncil.AttemptOutcome.parsed
          SensorCouncil.parseFailureSentinel) 1 =
      SensorCouncil.buildOutput SensorCouncil.parseFailureSentinel ∧
    (DecisionCore.decide (SignalExtractor.extract
      (SensorCouncil.buildOutput SensorCouncil.parseFailureSentinel))).verdict =
        DecisionVerdict.BLOCKED := by
  refine ⟨c2_sensor_fallback.1 _ 2 (fun i => ⟨"boom", rfl⟩),
    c2_sensor_fallback.2.1 _ 2 "SAFETY" rfl,
    (c2_sensor_fallback.2.2.2.1 "msg").1,
    c2_sensor_fallback.2.2.2.2.1 _ _ 1 (fun _ => rfl) (fun _ => rfl),
    c2_sensor_fallback.2.2.2.2.2 SensorCouncil.parseFailureSentinel rfl⟩

/-! ## RateLimiter (backend/rate_limiter.py) -/

/-- Python `int(x)` on a float: truncation toward zero (floats are
modelled as rationals). -/
def pyInt (q : ℚ) : Int := if 0 ≤ q then ⌊q⌋ else ⌈q⌉

namespace RateLimiter

/-- Constructor arguments of `RateLimiter`. -/
structure Config where
  max_requests : Nat
  window_seconds : ℚ

/-- The purge in `RateLimiter.check`: keep timestamps strictly newer
than `now - window_seconds`. -/
def purge (cfg : Config) (l : List ℚ) (now : ℚ) : List ℚ :=
  l.filter (fun ts => decide (now - cfg.window_seconds < ts))

/-- Python `min` over a list; `none` models the `ValueError` on an empty
list. -/
def listMin : List ℚ → Option ℚ
  | [] => none
  | x :: xs => some (xs.foldl min x)

/-- `RateLimiter.check` on the stored timestamp list of one identifier:
returns `((allowed, retry_after), new timestamp list)`. -/
def check (cfg : Config) (l : List ℚ) (now : ℚ) :
    Option ((Bool × Int) × List ℚ) :=
  let kept := purge cfg l now
  if kept.length < cfg.max_requests then
    some ((true, 0), kept ++ [now])
  else
    match listMin kept with
    | none => none
    | some oldest =>
      some ((false, max 1 (pyInt (oldest + cfg.window_seconds - now) + 1)), kept)

/-- A sequence of `check` calls for the same identifier, at the given
times, threading the stored timestamp list. -/
def checkSeq (cfg : Config) (l : List ℚ) : List ℚ →
    Option (List (Bool × Int) × List ℚ)
  | [] => some ([], l)
  | t :: ts =>
    match check cfg l t with
    | none => none
    | some (res, l') =>
      match checkSeq cfg l' ts with
      | none => none
      | some (rs, lf) => some (res :: rs, lf)

/-- Python `min` returns an element of the list. -/
theorem listMin_mem {l : List ℚ} {m : ℚ} (h : listMin l = some m) : m ∈ l := by
  match l with
  | [] => simp [listMin] at h
  | x :: xs =>
    simp only [listMin, Option.some.injEq] at h
    subst h
    induction xs generalizing x with
    | nil => simp
    | cons y ys ih =>
      simp only [List.foldl_cons]
      rcases List.mem_cons.mp (ih (min x y)) with h1 | h1
      · rcases min_choice x y with hm | hm
        · rw [hm] at h1 ⊢
          rw [h1]
          exact List.mem_cons_self _ _
        · rw [hm] at h1 ⊢
          rw [h1]
          exact List.mem_cons_of_mem _ (List.mem_cons_self _ _)
      · exact List.mem_cons_of_mem _ (List.mem_cons_of_mem _ h1)

end RateLimiter

/-- C3 counterexample: the denial retry time is `int(oldest + W - now) + 1`,
which is `floor + 1`, not `ceil`: with N=1, W=60, one stored timestamp 0
and a check at time 0 the code returns retryAfter 61 where the claimed
formula `max 1 ceil(0 + 60 - 0)` gives 60; and with N=3, W=60, four
checks all at time 0 the fourth is denied with retryAfter 61 > 60,
refuting the claimed upper bound of 60. -/
theorem c3_counterexample :
    RateLimiter.check ⟨1, 60⟩ [0] 0 = some ((false, 61), [0]) ∧
    max 1 ⌈(0:ℚ) + 60 - 0⌉ = (60 : Int) ∧ (61 : Int) ≠ 60 ∧
    RateLimiter.checkSeq ⟨3, 60⟩ [] [0, 0, 0, 0] =
      some ([(true, 0), (true, 0), (true, 0), (false, 61)], [0, 0, 0]) ∧
    ¬ ((61 : Int) ≤ 60) := by
  refine ⟨?_, by norm_num, by norm_num, ?_, by norm_num⟩
  · norm_num [RateLimiter.check, RateLimiter.purge, RateLimiter.listMin, pyInt]
  · norm_num [RateLimiter.checkSeq, RateLimiter.check, RateLimiter.purge,
      RateLimiter.listMin, pyInt]

/-- C3 (amended): an allowed check records `now` and returns retryAfter
0; a denied check returns `retryAfter = max 1 (floor(oldest + W - now) + 1)`,
which is at least 1 and agrees with `max 1 (ceil(oldest + W - now))`
whenever `oldest + W - now` is not an integer; in the N=3, W=60 scenario
with three checks within one second all three are allowed, and a fourth
immediate check is denied with retryAfter between 1 and 61, and at most
60 whenever the fourth check is strictly later than the first. -/
theorem c3_rate_limiter :
    (∀ (cfg : RateLimiter.Config) (l : List ℚ) (now : ℚ),
      (RateLimiter.purge cfg l now).length < cfg.max_requests →
      RateLimiter.check cfg l now =
        some ((true, 0), RateLimiter.purge cfg l now ++ [now])) ∧
    (∀ (cfg : RateLimiter.Config) (l : List ℚ) (now oldest : ℚ),
      ¬ (RateLimiter.purge cfg l now).length < cfg.max_requests →
      RateLimiter.listMin (RateLimiter.purge cfg l now) = some oldest →
      RateLimiter.check cfg l now =
        some ((false, max 1 (⌊oldest + cfg.window_seconds - now⌋ + 1)),
          RateLimiter.purge cfg l now) ∧
      1 ≤ max 1 (⌊oldest + cfg.window_seconds - now⌋ + 1) ∧
      (¬ (∃ z : ℤ, (z : ℚ) = oldest + cfg.window_seconds - now) →
        max 1 (⌊oldest + cfg.window_seconds - now⌋ + 1) =
          max 1 ⌈oldest + cfg.window_seconds - now⌉)) ∧
    (∀ t1 t2 t3 t4 : ℚ, t1 ≤ t2 → t2 ≤ t3 → t3 ≤ t4 →
      t3 - t1 ≤ 1 → t4 - t1 ≤ 1 →
      RateLimiter.checkSeq ⟨3, 60⟩ [] [t1, t2, t3, t4] =
        some ([(true, 0), (true, 0), (true, 0),
          (false, ⌊t1 + 60 - t4⌋ + 1)], [t1, t2, t3]) ∧
      1 ≤ ⌊t1 + 60 - t4⌋ + 1 ∧ ⌊t1 + 60 - t4⌋ + 1 ≤ 61 ∧
      (t1 < t4 → ⌊t1 + 60 - t4⌋ + 1 ≤ 60)) := by
  refine ⟨?_, ?_, ?_⟩
  · intro cfg l now h
    simp [RateLimiter.check, h]
  · intro cfg l now oldest h hmin
    have hmem := RateLimiter.listMin_mem hmin
    have hpos : 0 < oldest + cfg.window_seconds - now := by
      have := (List.mem_filter.mp hmem).2
      have h' : now - cfg.window_seconds < oldest := of_decide_eq_true this
      linarith
    have hfl : pyInt (oldest + cfg.window_seconds - now) =
        ⌊oldest + cfg.window_seconds - now⌋ := by
      rw [pyInt, if_pos hpos.le]
    refine ⟨?_, le_max_left _ _, ?_⟩
    · rw [RateLimiter.check]
      simp only [if_neg h, hmin, hfl]
    · intro hnint
      have hne : ⌊oldest + cfg.window_seconds - now⌋ + 1 =
          ⌈oldest + cfg.window_seconds - now⌉ := by
        set q : ℚ := oldest + cfg.window_seconds - now with hq
        refine le_antisymm ?_ (Int.ceil_le_floor_add_one q)
        by_contra hc
        push_neg at hc
        have h1 : (⌈q⌉ : ℚ) ≤ (⌊q⌋ : ℚ) := by exact_mod_cast Int.lt_add_one_iff.mp hc
        have h2 : q = (⌊q⌋ : ℚ) :=
          le_antisymm (le_trans (Int.le_ceil q) h1) (Int.floor_le q)
        exact hnint ⟨⌊q⌋, h2.symm⟩
      rw [hne]
  · intro t1 t2 t3 t4 h12 h23 h34 hspan h41
    have k21 : t2 - 60 < t1 := by linarith
    have k31 : t3 - 60 < t1 := by linarith
    have k32 : t3 - 60 < t2 := by linarith
    have k41 : t4 - 60 < t1 := by linarith
    have k42 : t4 - 60 < t2 := by linarith
    have k43 : t4 - 60 < t3 := by linarith
    have hge : (0:ℚ) ≤ t1 + 60 - t4 := by linarith
    have hfl0 : (0 : Int) ≤ ⌊t1 + 60 - t4⌋ :=
      Int.le_floor.mpr (by exact_mod_cast hge)
    have hmax : max (1 : Int) (⌊t1 + 60 - t4⌋ + 1) = ⌊t1 + 60 - t4⌋ + 1 :=
      max_eq_right (by omega)
    have hub : ⌊t1 + 60 - t4⌋ + 1 ≤ 61 := by
      have : ⌊t1 + 60 - t4⌋ < 61 := Int.floor_lt.mpr (by push_cast; linarith)
      omega
    have hlast : t1 < t4 → ⌊t1 + 60 - t4⌋ + 1 ≤ 60 := by
      intro hlt
      have : ⌊t1 + 60 - t4⌋ < 60 := Int.floor_lt.mpr (by push_cast; linarith)
      omega
    refine ⟨?_, by omega, hub, hlast⟩
    have e1 : RateLimiter.check ⟨3, 60⟩ [] t1 = some ((true, 0), [t1]) := by
      simp [RateLimiter.check, RateLimiter.purge]
    have e2 : RateLimiter.check ⟨3, 60⟩ [t1] t2 = some ((true, 0), [t1, t2]) := by
      simp [RateLimiter.check, RateLimiter.purge, k21]
    have e3 : RateLimiter.check ⟨3, 60⟩ [t1, t2] t3 =
        some ((true, 0), [t1, t2, t3]) := by
      simp [RateLimiter.check, RateLimiter.purge, k31, k32]
    have e4 : RateLimiter.check ⟨3, 60⟩ [t1, t2, t3] t4 =
        some ((false, ⌊t1 + 60 - t4⌋ + 1), [t1, t2, t3]) := by
      have hpy : pyInt (t1 + 60 - t4) = ⌊t1 + 60 - t4⌋ := by
        rw [pyInt, if_pos hge]
      simp only [RateLimiter.check, RateLimiter.purge, List.filter_cons,
        List.filter_nil, decide_eq_true_eq, k41, k42, k43, if_true, if_pos]
      simp [RateLimiter.listMin, min_eq_left h12,
        min_eq_left (le_trans h12 h23), hpy, hmax]
    simp only [RateLimiter.checkSeq, e1, e2, e3, e4]

/-- C3 witness: the amended claim theorem applied at concrete times. -/
theorem c3_rate_limiter_witness :
    RateLimiter.checkSeq ⟨3, 60⟩ [] [0, 0, 0, (1:ℚ)/2] =
      some ([(true, 0), (true, 0), (true, 0),
        (false, ⌊(0:ℚ) + 60 - (1:ℚ)/2⌋ + 1)], [0, 0, 0]) ∧
    RateLimiter.check ⟨2, 60⟩ [0] ((1:ℚ)/4) =
      some ((true, 0), [0, (1:ℚ)/4]) := by
  constructor
  · exact (c3_rate_limiter.2.2 0 0 0 ((1:ℚ)/2) (by norm_num) (by norm_num)
      (by norm_num) (by norm_num) (by norm_num)).1
  · have h := c3_rate_limiter.1 ⟨2, 60⟩ [0] ((1:ℚ)/4)
      (by norm_num [RateLimiter.purge])
    rw [h]
    norm_num [RateLimiter.purge]

/-! ## JSON values and `json.loads` -/

/-- A parsed JSON value (the result type of `json.loads`).  Objects keep
their members in textual order. -/
inductive JValue where
  | null
  | bool (b : Bool)
  | num (n : Int)
  | str (s : String)
  | arr (elems : List JValue)
  | obj (members : List (String × JValue))

namespace PyJson

/-- JSON inter-token whitespace accepted by `json.loads`. -/
def isJsonWs (c : Char) : Bool := c = ' ' || c = '\t' || c = '\n' || c = '\r'

def skipWs (l : List Char) : List Char := l.dropWhile isJsonWs

def hexVal (c : Char) : Option Nat :=
  if '0' ≤ c ∧ c ≤ '9' then some (c.toNat - '0'.toNat)
  else if 'a' ≤ c ∧ c ≤ 'f' then some (c.toNat - 'a'.toNat + 10)
  else if 'A' ≤ c ∧ c ≤ 'F' then some (c.toNat - 'A'.toNat + 10)
  else none

/-- JSON string literal body after the opening quote, in strict mode:
the standard escapes, `\uXXXX`, and no raw control characters. -/
def parseStringBody : Nat → List Char → List Char → Option (String × List Char)
  | 0, _, _ => none
  | fuel + 1, acc, l =>
    match l with
    | [] => none
    | '"' :: rest => some (⟨acc.reverse⟩, rest)
    | '\\' :: e :: rest =>
      match e with
      | '"' => parseStringBody fuel ('"' :: acc) rest
      | '\\' => parseStringBody fuel ('\\' :: acc) rest
      | '/' => parseStringBody fuel ('/' :: acc) rest
      | 'b' => parseStringBody fuel ('\x08' :: acc) rest
      | 'f' => parseStringBody fuel ('\x0c' :: acc) rest
      | 'n' => parseStringBody fuel ('\n' :: acc) rest
      | 'r' => parseStringBody fuel ('\r' :: acc) rest
      | 't' => parseStringBody fuel ('\t' :: acc) rest
      | 'u' =>
        match rest with
        | h1 :: h2 :: h3 :: h4 :: rest' =>
          match hexVal h1, hexVal h2, hexVal h3, hexVal h4 with
          | some a, some b, some c, some d =>
            parseStringBody fuel
              (Char.ofNat (((a * 16 + b) * 16 + c) * 16 + d) :: acc) rest'
          | _, _, _, _ => none
        | _ => none
      | _ => none
    | c :: rest =>
      if c.toNat < 32 then none else parseStringBody fuel (c :: acc) rest

def digitsPrefix : List Char → List Char × List Char
  | [] => ([], [])
  | c :: rest =>
    if c.isDigit then
      let (ds, r) := digitsPrefix rest
      (c :: ds, r)
    else ([], c :: rest)

def natOfDigits (ds : List Char) : Nat :=
  ds.foldl (fun acc c => acc * 10 + (c.toNat - '0'.toNat)) 0

/-- JSON integer literal: optional minus, then `0` or a nonzero digit
run.  This restricts `json.loads` numbers to the integers; the
repository's parsed payloads (scores, sentences, suggestions) use no
fractional literals. -/
def parseIntLit : List Char → Option (Int × List Char)
  | l =>
    let (neg, l') := match l with
      | '-' :: rest => (true, rest)
      | _ => (false, l)
    match l' with
    | '0' :: rest => some (0, rest)
    | c :: _ =>
      if c.isDigit then
        let (ds, r) := digitsPrefix l'
        let n : Int := Int.ofNat (natOfDigits ds)
        some (if neg then -n else n, r)
      else none
    | [] => none

mutual

/-- Recursive-descent JSON value, as `json.loads` accepts it (restricted
to integer numerals). -/
def parseValue : Nat → List Char → Option (JValue × List Char)
  | 0, _ => none
  | fuel + 1, l =>
    match skipWs l with
    | 'n' :: 'u' :: 'l' :: 'l' :: rest => some (JValue.null, rest)
    | 't' :: 'r' :: 'u' :: 'e' :: rest => some (JValue.bool true, rest)
    | 'f' :: 'a' :: 'l' :: 's' :: 'e' :: rest => some (JValue.bool false, rest)
    | '"' :: rest =>
      match parseStringBody (rest.length + 1) [] rest with
      | some (s, r) => some (JValue.str s, r)
      | none => none
    | '[' :: rest =>
      match skipWs rest with
      | ']' :: r => some (JValue.arr [], r)
      | r => match parseElems fuel r with
        | some (xs, r') => some (JValue.arr xs, r')
        | none => none
    | '{' :: rest =>
      match skipWs rest with
      | '}' :: r => some (JValue.obj [], r)
      | r => match parseMembers fuel r with
        | some (ms, r') => some (JValue.obj ms, r')
        | none => none
    | l' =>
      match parseIntLit l' with
      | some (n, r) => some (JValue.num n, r)
      | none => none

/-- One or more comma-separated array elements up to the closing `]`. -/
def parseElems : Nat → List Char → Option (List JValue × List Char)
  | 0, _ => none
  | fuel + 1, l =>
    match parseValue fuel l with
    | none => none
    | some (v, r) =>
      match skipWs r with
      | ',' :: r' =>
        match parseElems fuel r' with
        | some (xs, r'') => some (v :: xs, r'')
        | none => none
      | ']' :: r' => some ([v], r')
      | _ => none

/-- One or more comma-separated object members up to the closing brace. -/
def parseMembers : Nat → List Char → Option (List (String × JValue) × List Char)
  | 0, _ => none
  | fuel + 1, l =>
    match skipWs l with
    | '"' :: rest =>
      match parseStringBody (rest.length + 1) [] rest with
      | none => none
      | some (k, r) =>
        match skipWs r with
        | ':' :: r' =>
          match parseValue fuel r' with
          | none => none
          | some (v, r'') =>
            match skipWs r'' with
            | ',' :: r3 =>
              match parseMembers fuel r3 with
              | some (ms, r4) => some ((k, v) :: ms, r4)
              | none => none
            | '}' :: r3 => some ([(k, v)], r3)
            | _ => none
        | _ => none
    | _ => none

end

end PyJson

/-- `json.loads`: one JSON value surrounded only by whitespace; a parse
failure (`JSONDecodeError`) is `none`. -/
def pyJsonLoads (s : String) : Option JValue :=
  match PyJson.parseValue (s.length + 2) s.data with
  | some (v, rest) => if PyJson.skipWs rest = [] then some v else none
  | none => none

/-- First index of a character, for `str.find` and the greedy
bracket-matching regex anchors. -/
def firstIdxOf (c : Char) : List Char → Option Nat
  | [] => none
  | x :: xs => if x = c then some 0 else (firstIdxOf c xs).map (· + 1)

/-- Last index of a character. -/
def lastIdxOf (c : Char) (l : List Char) : Option Nat :=
  (firstIdxOf c l.reverse).map (fun k => l.length - 1 - k)

/-! ## StrategicOptimizer (backend/optimizer.py) -/

namespace StrategicOptimizer

/-- `re.search(r'\[.*\]', text, re.DOTALL)`: the span from the first `[`
to the last `]`, when the latter comes after the former. -/
def bracketSpan (s : String) : Option String :=
  match firstIdxOf '[' s.data, lastIdxOf ']' s.data with
  | some i, some j =>
    if i < j then some ⟨(s.data.drop i).take (j - i + 1)⟩ else none
  | _, _ => none

/-- The fixed fallback suggestion list of `_parse_suggestions`. -/
def fallbackSuggestions : List JValue :=
  [JValue.str "Increase your safety margin by at least 30%",
   JValue.str "Extend timeline by 3-6 months for proper preparation",
   JValue.str "Reduce initial commitment to 50% of planned resources"]

/-- The array-extraction step of `_parse_suggestions`: parse the first
bracketed span; any parsed list (even empty) is truncated to 3 and
returned, anything else falls to the fixed fallback list. -/
def parseSuggestionsSpan (text : String) : List JValue :=
  match bracketSpan text with
  | some sub =>
    match pyJsonLoads sub with
    | some (JValue.arr l) => l.take 3
    | _ => fallbackSuggestions
  | none => fallbackSuggestions

/-- `StrategicOptimizer._parse_suggestions`: direct parse if it yields a
non-empty list, else the array-extraction step. -/
def parseSuggestions (text : String) : List JValue :=
  match pyJsonLoads text with
  | some (JValue.arr l) =>
    if 1 ≤ l.length then l.take 3 else parseSuggestionsSpan text
  | _ => parseSuggestionsSpan text

end StrategicOptimizer

/-- C8 counterexample: the empty direct-parsed array (fewer than 1 valid
item) does not trigger the fallback list: the extraction step returns
the empty list because it has no minimum-length check. -/
theorem c8_counterexample :
    StrategicOptimizer.parseSuggestions "[]" = [] ∧
    StrategicOptimizer.fallbackSuggestions ≠ [] ∧
    StrategicOptimizer.fallbackSuggestions.length = 3 := by
  refine ⟨rfl, by simp [StrategicOptimizer.fallbackSuggestions], rfl⟩

/-- C8 (amended): a direct JSON array with at least one item is accepted
and truncated to the first 3; when the direct parse fails, the first
bracketed span is extracted and any parsed list — including the empty
list, with no minimum-1 check — is truncated to 3 and returned; the
fixed 3-item fallback list is returned when no bracketed-array parse
succeeds. -/
theorem c8_suggestion_parsing :
    (∀ (text : String) (l : List JValue),
      pyJsonLoads text = some (JValue.arr l) → l ≠ [] →
      StrategicOptimizer.parseSuggestions text = l.take 3) ∧
    (∀ (text sub : String) (l : List JValue),
      pyJsonLoads text = none →
      StrategicOptimizer.bracketSpan text = some sub →
      pyJsonLoads sub = some (JValue.arr l) →
      StrategicOptimizer.parseSuggestions text = l.take 3) ∧
    (∀ text : String,
      pyJsonLoads text = none →
      StrategicOptimizer.bracketSpan text = none →
      StrategicOptimizer.parseSuggestions text =
        StrategicOptimizer.fallbackSuggestions) ∧
    StrategicOptimizer.fallbackSuggestions.length = 3 := by
  refine ⟨?_, ?_, ?_, rfl⟩
  · intro text l h hne
    rw [StrategicOptimizer.parseSuggestions, h]
    simp [Nat.one_le_iff_ne_zero, List.length_eq_zero, hne]
  · intro text sub l h hspan hsub
    rw [StrategicOptimizer.parseSuggestions, h]
    simp only [StrategicOptimizer.parseSuggestionsSpan, hspan, hsub]
  · intro text h hspan
    rw [StrategicOptimizer.parseSuggestions, h]
    simp only [StrategicOptimizer.parseSuggestionsSpan, hspan]

/-- C8 witness: the claim theorem applied to concrete response texts. -/
theorem c8_suggestion_parsing_witness :
    StrategicOptimizer.parseSuggestions "[\"a\", \"b\", \"c\", \"d\"]" =
      [JValue.str "a", JValue.str "b", JValue.str "c", JValue.str "d"].take 3 ∧
    StrategicOptimizer.parseSuggestions "no array here" =
      StrategicOptimizer.fallbackSuggestions := by
  refine ⟨c8_suggestion_parsing.1 _ _ rfl (by simp),
    c8_suggestion_parsing.2.2.1 _ rfl rfl⟩

/-! ## EmotionalBiasDetector (backend/bias_detector.py) -/

namespace EmotionalBiasDetector

/-- The level derivation in `EmotionalBiasDetector.analyze`:
`score > 70` HIGH, `score > 40` MEDIUM, else LOW. -/
def levelOfScore (score : Int) : BiasLevel :=
  if 70 < score then BiasLevel.HIGH
  else if 40 < score then BiasLevel.MEDIUM
  else BiasLevel.LOW

/-- The keys `analyze` reads from the parsed bias-detection response:
`bias_score`, `flagged_phrases`, `suggestion` (each may be absent). -/
structure ParsedBias where
  bias_score : Option Int
  flagged_phrases : Option (List String)
  suggestion : Option String

/-- The success path of `analyze` on a parsed response: score defaults
to 0, level is derived, phrases and suggestion are echoed; pydantic
validation of `BiasAnalysis` (score in [0, 100]) raises outside the
range (`none`), sending the flow to the except-branch fallback. -/
def successAnalysis (r : ParsedBias) : Option BiasAnalysis :=
  let score := r.bias_score.getD 0
  if 0 ≤ score ∧ score ≤ 100 then
    some { bias_score := score
           bias_level := levelOfScore score
           flagged_phrases := r.flagged_phrases.getD []
           suggestion := r.suggestion }
  else none

end EmotionalBiasDetector

/-- C7: on the BiasGate success path the level is the stated function of
the score — HIGH iff score > 70, MEDIUM iff 40 < score ≤ 70, LOW iff
score ≤ 40 — so 40 gives LOW, 41 and 70 give MEDIUM, 71 gives HIGH. -/
theorem c7_bias_level_boundaries :
    ((EmotionalBiasDetector.successAnalysis ⟨some 40, none, none⟩).map
      BiasAnalysis.bias_level = some BiasLevel.LOW) ∧
    ((EmotionalBiasDetector.successAnalysis ⟨some 41, none, none⟩).map
      BiasAnalysis.bias_level = some BiasLevel.MEDIUM) ∧
    ((EmotionalBiasDetector.successAnalysis ⟨some 70, none, none⟩).map
      BiasAnalysis.bias_level = some BiasLevel.MEDIUM) ∧
    ((EmotionalBiasDetector.successAnalysis ⟨some 71, none, none⟩).map
      BiasAnalysis.bias_level = some BiasLevel.HIGH) ∧
    (∀ (r : EmotionalBiasDetector.ParsedBias) (a : BiasAnalysis),
      EmotionalBiasDetector.successAnalysis r = some a →
      ((a.bias_level = BiasLevel.HIGH ↔ 70 < a.bias_score) ∧
       (a.bias_level = BiasLevel.MEDIUM ↔ 40 < a.bias_score ∧ a.bias_score ≤ 70) ∧
       (a.bias_level = BiasLevel.LOW ↔ a.bias_score ≤ 40))) := by
  refine ⟨rfl, rfl, rfl, rfl, ?_⟩
  intro r a h
  rw [EmotionalBiasDetector.successAnalysis] at h
  split at h
  · obtain rfl := (Option.some.injEq _ _).mp h.symm
    simp only [EmotionalBiasDetector.levelOfScore]
    split_ifs <;> simp_all
    all_goals omega
  · exact absurd h (by simp)

/-- C7 witness: the claim theorem applied at a concrete parsed score. -/
theorem c7_bias_level_boundaries_witness :
    ({ bias_score := 55, bias_level := BiasLevel.MEDIUM, flagged_phrases := [],
       suggestion := none } : BiasAnalysis).bias_level = BiasLevel.MEDIUM ∧
    (40 : Int) < 55 ∧ (55 : Int) ≤ 70 := by
  refine ⟨(c7_bias_level_boundaries.2.2.2.2 ⟨some 55, none, none⟩ _
    rfl).2.1.mpr (by norm_num), by norm_num, by norm_num⟩

/-- C9 counterexample: a successfully parsed response with score 10 and
a non-null suggestion yields a success-path `BiasAnalysis` with level
LOW and the suggestion present — the code echoes `result.get("suggestion")`
without consulting the level. -/
theorem c9_counterexample :
    EmotionalBiasDetector.successAnalysis ⟨some 10, some [], some "x"⟩ =
      some { bias_score := 10, bias_level := BiasLevel.LOW,
             flagged_phrases := [], suggestion := some "x" } ∧
    (some "x" : Option String) ≠ none := by
  exact ⟨rfl, by simp⟩

/-- C9 (amended): the success path echoes the parsed response's
suggestion unconditionally; the invariant "level LOW has no suggestion"
holds exactly when the parsed response follows the prompt contract of a
null suggestion at scores of 70 or below. -/
theorem c9_low_level_no_suggestion
    (r : EmotionalBiasDetector.ParsedBias) (a : BiasAnalysis)
    (h : EmotionalBiasDetector.successAnalysis r = some a)
    (hcontract : ∀ s, r.suggestion = some s → 70 < r.bias_score.getD 0)
    (hlow : a.bias_level = BiasLevel.LOW) : a.suggestion = none := by
  rw [EmotionalBiasDetector.successAnalysis] at h
  split at h
  · obtain rfl := (Option.some.injEq _ _).mp h.symm
    match hs : r.suggestion with
    | none => rfl
    | some s =>
      exfalso
      have h70 := hcontract s hs
      simp only [EmotionalBiasDetector.levelOfScore, if_pos h70] at hlow
      exact absurd hlow (by simp)
  · exact absurd h (by simp)

/-- C9 witness: the amended theorem applied at a concrete contract-
following parsed response. -/
theorem c9_low_level_no_suggestion_witness :
    ({ bias_score := 10, bias_level := BiasLevel.LOW, flagged_phrases := [],
       suggestion := none } : BiasAnalysis).suggestion = none := by
  exact c9_low_level_no_suggestion ⟨some 10, some [], none⟩ _ rfl
    (fun s hs => by simp at hs) rfl

/-! ## InputGatekeeper field validation (backend/gatekeeper.py) -/

/-- Structured decision object extracted by the gatekeeper
(`DecisionObject`). -/
structure DecisionObject where
  goal : String
  cost : String
  risk : String
  irreversible : IrreversibleType
deriving DecidableEq, Repr

/-- Result of `InputGatekeeper._validate_fields`: either
`IncompleteDecision(missing_field, question)` or
`CompleteDecision(decision_object)`. -/
inductive ValidationResult where
  | incomplete (missing_field question : String)
  | complete (decision_object : DecisionObject)
deriving DecidableEq, Repr

namespace InputGatekeeper

/-- The static `MISSING_FIELD_QUESTIONS` table. -/
def missingFieldQuestion : String → String
  | "goal" => "What specific outcome are you trying to achieve?"
  | "cost" => "What will you sacrifice or invest? (money, time, effort, etc.)"
  | "risk" => "What could go wrong with this decision?"
  | "irreversible" => "Can this decision be undone? (yes / no / partially)"
  | _ => ""

/-- Python `dict.get(k)` on a string-valued dict (association list). -/
def pyDictGet (d : List (String × String)) (k : String) : Option String :=
  (d.find? (fun kv => kv.1 == k)).map Prod.snd

/-- The per-field missing test: `value = extracted.get(field, "").strip()`
then `not value or value.upper() == "UNCLEAR"`. -/
def isMissing (v : String) : Bool :=
  pyStrip v == "" || pyUpper (pyStrip v) == "UNCLEAR"

/-- The irreversibility normalization on `extracted["irreversible"].lower().strip()`. -/
def normalizeIrr (s : String) : IrreversibleType :=
  if pyStrip (pyLower s) = "yes" ∨ pyStrip (pyLower s) = "true" ∨
      pyStrip (pyLower s) = "1" then
    IrreversibleType.YES
  else if pyStrip (pyLower s) = "no" ∨ pyStrip (pyLower s) = "false" ∨
      pyStrip (pyLower s) = "0" then
    IrreversibleType.NO
  else IrreversibleType.PARTIAL

/-- `InputGatekeeper._validate_fields` on a string-valued parsed dict:
the four fields are checked in the fixed order, the first missing one
wins; otherwise the raw values and the normalized irreversibility build
the decision object. -/
def validateFields (extracted : List (String × String)) : ValidationResult :=
  let get := fun f => (pyDictGet extracted f).getD ""
  if isMissing (get "goal") then
    ValidationResult.incomplete "goal" (missingFieldQuestion "goal")
  else if isMissing (get "cost") then
    ValidationResult.incomplete "cost" (missingFieldQuestion "cost")
  else if isMissing (get "risk") then
    ValidationResult.incomplete "risk" (missingFieldQuestion "risk")
  else if isMissing (get "irreversible") then
    ValidationResult.incomplete "irreversible" (missingFieldQuestion "irreversible")
  else
    ValidationResult.complete
      { goal := get "goal"
        cost := get "cost"
        risk := get "risk"
        irreversible := normalizeIrr (get "irreversible") }

end InputGatekeeper

/-- C5 counterexample: a whitespace-only goal value is neither empty nor
case-insensitively "UNCLEAR", yet validation returns Incomplete for it,
because the code strips the value before the emptiness test. -/
theorem c5_counterexample :
    InputGatekeeper.validateFields
        [("goal", " "), ("cost", "c"), ("risk", "r"), ("irreversible", "yes")] =
      ValidationResult.incomplete "goal"
        "What specific outcome are you trying to achieve?" ∧
    (" " : String) ≠ "" ∧ pyUpper " " ≠ "UNCLEAR" := by
  refine ⟨rfl, by simp, by decide⟩

/-- C5 (amended): fields are checked in the fixed order goal, cost,
risk, irreversible; a value that is empty after stripping whitespace or
case-insensitively "UNCLEAR" after stripping makes validation return
Incomplete with exactly the first such field and its fixed question;
otherwise the irreversibility value is normalized (yes/true/1 to YES,
no/false/0 to NO, anything else to PARTIAL, never an error) and a
CompleteDecision is returned. -/
theorem c5_field_validation :
    (∀ v, InputGatekeeper.isMissing v = true ↔
      pyStrip v = "" ∨ pyUpper (pyStrip v) = "UNCLEAR") ∧
    (∀ d, InputGatekeeper.isMissing ((InputGatekeeper.pyDictGet d "goal").getD "") = true →
      InputGatekeeper.validateFields d = ValidationResult.incomplete "goal"
        "What specific outcome are you trying to achieve?") ∧
    (∀ d, InputGatekeeper.isMissing ((InputGatekeeper.pyDictGet d "goal").getD "") = false →
      InputGatekeeper.isMissing ((InputGatekeeper.pyDictGet d "cost").getD "") = true →
      InputGatekeeper.validateFields d = ValidationResult.incomplete "cost"
        "What will you sacrifice or invest? (money, time, effort, etc.)") ∧
    (∀ d, InputGatekeeper.isMissing ((InputGatekeeper.pyDictGet d "goal").getD "") = false →
      InputGatekeeper.isMissing ((InputGatekeeper.pyDictGet d "cost").getD "") = false →
      InputGatekeeper.isMissing ((InputGatekeeper.pyDictGet d "risk").getD "") = true →
      InputGatekeeper.validateFields d = ValidationResult.incomplete "risk"
        "What could go wrong with this decision?") ∧
    (∀ d, InputGatekeeper.isMissing ((InputGatekeeper.pyDictGet d "goal").getD "") = false →
      InputGatekeeper.isMissing ((InputGatekeeper.pyDictGet d "cost").getD "") = false →
      InputGatekeeper.isMissing ((InputGatekeeper.pyDictGet d "risk").getD "") = false →
      InputGatekeeper.isMissing ((InputGatekeeper.pyDictGet d "irreversible").getD "") = true →
      InputGatekeeper.validateFields d = ValidationResult.incomplete "irreversible"
        "Can this decision be undone? (yes / no / partially)") ∧
    (∀ d, InputGatekeeper.isMissing ((InputGatekeeper.pyDictGet d "goal").getD "") = false →
      InputGatekeeper.isMissing ((InputGatekeeper.pyDictGet d "cost").getD "") = false →
      InputGatekeeper.isMissing ((InputGatekeeper.pyDictGet d "risk").getD "") = false →
      InputGatekeeper.isMissing ((InputGatekeeper.pyDictGet d "irreversible").getD "") = false →
      InputGatekeeper.validateFields d = ValidationResult.complete
        { goal := (InputGatekeeper.pyDictGet d "goal").getD ""
          cost := (InputGatekeeper.pyDictGet d "cost").getD ""
          risk := (InputGatekeeper.pyDictGet d "risk").getD ""
          irreversible := InputGatekeeper.normalizeIrr
            ((InputGatekeeper.pyDictGet d "irreversible").getD "") }) ∧
    (∀ s, (InputGatekeeper.normalizeIrr s = IrreversibleType.YES ↔
        (pyStrip (pyLower s) = "yes" ∨ pyStrip (pyLower s) = "true" ∨
         pyStrip (pyLower s) = "1")) ∧
      (InputGatekeeper.normalizeIrr s = IrreversibleType.NO ↔
        (¬ (pyStrip (pyLower s) = "yes" ∨ pyStrip (pyLower s) = "true" ∨
            pyStrip (pyLower s) = "1") ∧
         (pyStrip (pyLower s) = "no" ∨ pyStrip (pyLower s) = "false" ∨
          pyStrip (pyLower s) = "0")))) := by
  refine ⟨?_, ?_, ?_, ?_, ?_, ?_, ?_⟩
  · intro v
    simp [InputGatekeeper.isMissing]
  · intro d h
    simp [InputGatekeeper.validateFields, h, InputGatekeeper.missingFieldQuestion]
  · intro d h1 h2
    simp [InputGatekeeper.validateFields, h1, h2, InputGatekeeper.missingFieldQuestion]
  · intro d h1 h2 h3
    simp [InputGatekeeper.validateFields, h1, h2, h3, InputGatekeeper.missingFieldQuestion]
  · intro d h1 h2 h3 h4
    simp [InputGatekeeper.validateFields, h1, h2, h3, h4, InputGatekeeper.missingFieldQuestion]
  · intro d h1 h2 h3 h4
    simp [InputGatekeeper.validateFields, h1, h2, h3, h4]
  · intro s
    rw [InputGatekeeper.normalizeIrr]
    split_ifs with hy hn
    · rcases hy with h | h | h <;> rw [h] <;> simp
    · rcases hn with h | h | h <;> rw [h] at hy ⊢ <;> simp_all
    · exact ⟨by simp [hy], by simp [hy, hn]⟩

/-- C5 witness: the amended claim theorem applied at concrete dicts. -/
theorem c5_field_validation_witness :
    InputGatekeeper.validateFields
        [("goal", "g"), ("cost", "c"), ("risk", "r"), ("irreversible", "maybe")] =
      ValidationResult.complete
        { goal := "g", cost := "c", risk := "r",
          irreversible := IrreversibleType.PARTIAL } ∧
    InputGatekeeper.validateFields [("goal", "UNCLEAR")] =
      ValidationResult.incomplete "goal"
        "What specific outcome are you trying to achieve?" := by
  exact ⟨c5_field_validation.2.2.2.2.2.1 _ rfl rfl rfl rfl,
    c5_field_validation.2.1 _ rfl⟩

/-! ## InputGatekeeper response parsing (backend/gatekeeper.py) -/

/-- Python `needle in text` substring test. -/
def containsSub (needle : List Char) : List Char → Bool
  | [] => isPrefixL needle []
  | c :: rest => isPrefixL needle (c :: rest) || containsSub needle rest

/-- Python `str.replace`: left-to-right, non-overlapping, continuing
after each replacement. -/
def replaceAll (needle repl : List Char) : Nat → List Char → List Char
  | 0, l => l
  | _ + 1, [] => []
  | fuel + 1, c :: rest =>
    if isPrefixL needle (c :: rest) then
      repl ++ replaceAll needle repl fuel ((c :: rest).drop needle.length)
    else c :: replaceAll needle repl fuel rest

def pyReplace (s needle repl : String) : String :=
  ⟨replaceAll needle.data repl.data (s.data.length + 1) s.data⟩

namespace InputGatekeeper

/-- `re.sub(r"```(?:json)?\s*", "", text)`: remove each triple-backtick
fence, an optional literal `json` tag, and following whitespace. -/
def stripTicks : Nat → List Char → List Char
  | 0, l => l
  | fuel + 1, l =>
    match l with
    | '`' :: '`' :: '`' :: rest =>
      let rest1 := match rest with
        | 'j' :: 's' :: 'o' :: 'n' :: r => r
        | _ => rest
      stripTicks fuel (rest1.dropWhile isPyWs)
    | c :: rest => c :: stripTicks fuel rest
    | [] => []

/-- `re.sub(r"//.*$", "", clean, flags=re.MULTILINE)`: cut each line at
its first `//`. -/
def stripLineComments : Nat → List Char → List Char
  | 0, l => l
  | fuel + 1, l =>
    match l with
    | '/' :: '/' :: rest =>
      stripLineComments fuel (rest.dropWhile (fun c => c != '\n'))
    | c :: rest => c :: stripLineComments fuel rest
    | [] => []

/-- `re.sub(r",\s*C", "C")` for a closing character `C`: collapse a
comma followed by whitespace and the closer into the closer alone. -/
def collapseComma (close : Char) : Nat → List Char → List Char
  | 0, l => l
  | _ + 1, [] => []
  | fuel + 1, c :: rest =>
    if c == ',' then
      match rest.dropWhile isPyWs with
      | x :: r' =>
        if x == close then close :: collapseComma close fuel r'
        else c :: collapseComma close fuel rest
      | [] => c :: collapseComma close fuel rest
    else c :: collapseComma close fuel rest

/-- `re.search(r'\{.*\}', clean, re.DOTALL)`: the span from the first
opening brace to the last closing brace, when the latter comes after. -/
def braceSpan (s : String) : Option String :=
  match firstIdxOf '\x7b' s.data, lastIdxOf '\x7d' s.data with
  | some i, some j =>
    if i < j then some ⟨(s.data.drop i).take (j - i + 1)⟩ else none
  | _, _ => none

/-- The quote scan of `_repair_truncated_json`: toggle on a `"` whose
preceding character is not a backslash (initial previous character is
the empty string, modelled `none`). -/
def scanInString (l : List Char) : Bool :=
  (l.foldl (fun (st : Bool × Option Char) c =>
    (if c == '"' && st.2 != some '\\' then !st.1 else st.1, some c))
    (false, none)).1

/-- `InputGatekeeper._repair_truncated_json`: drop everything before the
first opening brace, append a closing quote if the scan ends inside a
string, then the surplus closing brackets, then the surplus closing
braces (a negative surplus contributes nothing, as in Python string
repetition). -/
def repairTruncatedJson (s : String) : Option String :=
  match firstIdxOf '\x7b' s.data with
  | none => none
  | some i =>
    let t := s.data.drop i
    let openBraces : Int := (t.count '\x7b' : Int) - (t.count '\x7d' : Int)
    let openBrackets : Int := (t.count '[' : Int) - (t.count ']' : Int)
    let withQuote := if scanInString t then t ++ ['"'] else t
    some ⟨withQuote ++ List.replicate openBrackets.toNat ']'
      ++ List.replicate openBraces.toNat '\x7d'⟩

/-- The aggressive-cleanup step of `_parse_json_response`: normalize
Python literal spellings, strip line comments, cut to the first balanced
brace span, remove trailing commas. -/
def aggressiveClean (text : String) : String :=
  let c1 := pyReplace text "True" "true"
  let c2 := pyReplace c1 "False" "false"
  let c3 := pyReplace c2 "None" "null"
  let c4 : String := ⟨stripLineComments (c3.data.length + 1) c3.data⟩
  let c5 := match braceSpan c4 with
    | some m => m
    | none => c4
  let c6 : String := ⟨collapseComma '\x7d' (c5.data.length + 1) c5.data⟩
  ⟨collapseComma ']' (c6.data.length + 1) c6.data⟩

/-- `InputGatekeeper._parse_json_response`: strip, remove code fences,
try a direct load, then the aggressive cleanup, then truncation repair;
`none` models the final `raise ValueError`. -/
def parseJsonResponse (responseText : String) : Option JValue :=
  let t0 := pyStrip responseText
  let text :=
    if containsSub "```".data t0.data then
      pyStrip (pyReplace ⟨stripTicks (t0.data.length + 1) t0.data⟩ "```" "")
    else t0
  match pyJsonLoads text with
  | some v => some v
  | none =>
    match pyJsonLoads (aggressiveClean text) with
    | some v => some v
    | none =>
      match repairTruncatedJson text with
      | some r => pyJsonLoads r
      | none => none

end InputGatekeeper

/-- C4 counterexample: the well-formed object text containing a
triple-backtick inside a string value is mangled by the fence-stripping
step, so repair-then-parse returns a different structure; and the object
text truncated right after a colon repairs to text that does not parse,
so the whole parse raises. -/
theorem c4_counterexample :
    pyJsonLoads "\x7b\"a\": \"```\"\x7d" =
      some (JValue.obj [("a", JValue.str "```")]) ∧
    InputGatekeeper.parseJsonResponse "\x7b\"a\": \"```\"\x7d" =
      some (JValue.obj [("a", JValue.str "")]) ∧
    (some (JValue.obj [("a", JValue.str "```")]) : Option JValue) ≠
      some (JValue.obj [("a", JValue.str "")]) ∧
    InputGatekeeper.repairTruncatedJson "\x7b\"a\":" = some "\x7b\"a\":\x7d" ∧
    pyJsonLoads "\x7b\"a\":\x7d" = none ∧
    InputGatekeeper.parseJsonResponse "\x7b\"a\":" = none := by
  refine ⟨rfl, rfl, by simp, rfl, rfl, rfl⟩

/-- C4 (amended): for well-formed JSON object text containing no
triple-backtick, repair-then-parse returns the identical structure; the
truncation repair appends a closing quote when the scan ends inside a
string, then the missing closing brackets, then the missing closing
braces, and for a truncation cut inside a string value of an array the
repaired text parses successfully to a structurally valid superset
(though not for every truncation point). -/
theorem c4_repair_parse :
    (∀ (text : String) (v : JValue),
      containsSub "```".data (pyStrip text).data = false →
      pyJsonLoads (pyStrip text) = some v →
      InputGatekeeper.parseJsonResponse text = some v) ∧
    (InputGatekeeper.repairTruncatedJson "\x7b\"a\": [\"x" =
        some "\x7b\"a\": [\"x\"]\x7d" ∧
      pyJsonLoads "\x7b\"a\": [\"x\"]\x7d" =
        some (JValue.obj [("a", JValue.arr [JValue.str "x"])]) ∧
      InputGatekeeper.parseJsonResponse "\x7b\"a\": [\"x" =
        some (JValue.obj [("a", JValue.arr [JValue.str "x"])])) := by
  constructor
  · intro text v h1 h2
    rw [InputGatekeeper.parseJsonResponse]
    simp only [h1, Bool.false_eq_true, if_false, h2]
  · exact ⟨rfl, rfl, rfl⟩

/-- C4 witness: the amended claim theorem applied at a concrete
well-formed object text. -/
theorem c4_repair_parse_witness :
    InputGatekeeper.parseJsonResponse "\x7b\"k\": 1\x7d" =
      some (JValue.obj [("k", JValue.num 1)]) := by
  exact c4_repair_parse.1 _ _ rfl rfl
